import Mathlib

set_option maxRecDepth 10000

/-!
Verification of the ServVIA healthcare query pipeline (Manishnm10/servviapvt).

Shallow embedding of the Python modules the claims are about:

* `medical/remedy_filter.py` — the medical safety filter
  (`RemedyFilter.filter_content_by_medical_profile`,
  `RemedyFilter.generate_medical_disclaimer`,
  `filter_remedies_by_medical_profile`),
* `retrieval/content_retrieval.py` — multi-source content retrieval with
  medical filtering (`apply_medical_filtering`, `content_retrieval`),
* `rag_service/execute_rag.py` — the RAG pipeline orchestrator
  (`execute_rag_pipeline`),
* `language_service/translation.py` — language detection / translation
  (`check_kannada_medical`, `detect_language_and_translate_to_english`,
  `translate_text_to_language`),
* `api/servvia_endpoint.py` — the POST endpoint logic
  (`get_answer_for_text_query`, `clean_ai_response_formatting`).

External effects (database lookups, HTTP calls, the translation and
generation services) are modelled as explicit outcome parameters: the
embedded functions are pure functions of the query data and of the
outcome each external call would have had.
-/

namespace ServVIA

/-- Outcome of one external (blocking / fallible) call: either the call
raised an exception, or it returned a value. -/
inductive StageOutcome (α : Type) where
  | raised
  | ok (value : α)
deriving DecidableEq

/-- Python truthiness of an optional string (`None` and `""` are falsy). -/
def strTruthy : Option String → Bool
  | none => false
  | some s => !(s == "")

/-- Python truthiness of an optional list (`None` and `[]` are falsy). -/
def listTruthyO : Option (List String) → Bool
  | none => false
  | some l => !l.isEmpty

/-- Python rendering of an optional string in an f-string
(`f"{x}"` prints `None` as the text `"None"`). -/
def pyStr : Option String → String
  | none => "None"
  | some s => s

/-- Python `str.lower()` (character-wise lower-casing; the repository's
data is ASCII, where `Char.toLower` agrees with Python). Defined on the
character list so that it evaluates by kernel reduction. -/
def strLower (s : String) : String := ⟨s.data.map Char.toLower⟩

/-- Python `sep.join(items)`. -/
def strIntercalate (sep : String) : List String → String
  | [] => ""
  | [x] => x
  | x :: xs => x ++ sep ++ strIntercalate sep xs

/-- Python `str.strip()`: remove leading and trailing whitespace. -/
def strStrip (s : String) : String :=
  ⟨((s.data.dropWhile Char.isWhitespace).reverse.dropWhile
      Char.isWhitespace).reverse⟩

/-- Python `s[:n]`: the first `n` characters. -/
def strTake (s : String) (n : Nat) : String := ⟨s.data.take n⟩

/-! ## Word-boundary matching (`re.search(r"\b…\b", s)`)

`remedy_filter.py` lines 138-144 test each avoid-set term with
`re.search(r"\b" + re.escape(ingredient) + r"\b", chunk_lower)`.
The embedding gives the exact `\b` semantics of Python's `re` module
(restricted to the ASCII word characters the repository's data uses). -/

/-- Python `re` word character `\w`, on the ASCII range: letters, digits,
underscore. -/
def isWordChar (c : Char) : Bool := c.isAlphanum || c == '_'

/-- Whether position `i` of `s` holds a word character (`false` past the
end of the string). -/
def wordAt (s : List Char) (i : Nat) : Bool :=
  match s.drop i with
  | [] => false
  | c :: _ => isWordChar c

/-- Python `\b` holds at position `i` of `s`: exactly one of
(the character before `i` is a word character) and (the character at `i`
is a word character) is true, out-of-range counting as non-word. -/
def boundaryAt (s : List Char) (i : Nat) : Bool :=
  (decide (i ≠ 0) && wordAt s (i - 1)) != wordAt s i

/-- The literal pattern `\b ing \b` matches `s` at position `i`. -/
def wbMatchAt (ing s : List Char) (i : Nat) : Bool :=
  decide ((s.drop i).take ing.length = ing) && boundaryAt s i &&
    boundaryAt s (i + ing.length)

/-- `re.search(r"\b" + re.escape(ing) + r"\b", s)` succeeds (a match exists
at some position of `s`). -/
def hasWordBoundaryMatch (ing s : List Char) : Bool :=
  (List.range (s.length + 1)).any (wbMatchAt ing s)

/-- `remedy_filter.py` lines 131-144: the chunk is lower-cased
(`chunk.lower()`) and the ingredient term (already lower-case in the
avoid set) is searched with word boundaries. -/
def chunkMentions (ingredient chunk : String) : Bool :=
  hasWordBoundaryMatch ingredient.data (chunk.data.map Char.toLower)

/-! ## `medical/remedy_filter.py` -/

/-- A user's medical profile as `get_medical_profile_by_user_id` returns
it: a dict with boolean condition flags and an allergy list
(`.get` on a missing key is falsy, so absent flags are `false`). -/
structure MedicalProfile where
  has_diabetes : Bool := false
  has_hypertension : Bool := false
  has_kidney_disease : Bool := false
  is_pregnant : Bool := false
  has_heart_disease : Bool := false
  has_allergies : Bool := false
  allergies : List String := []
deriving DecidableEq

/-- Outcome of `get_medical_profile_by_user_id(user_id)`: the lookup
raised, or returned a profile or `None`. -/
inductive ProfileLookup where
  | raised
  | ok (profile : Option MedicalProfile)
deriving DecidableEq

/-- `remedy_filter.py` lines 69-73: the profile lookup is wrapped in
`try/except`; on an exception `profile` is set to `None`. -/
def lookupProfile : ProfileLookup → Option MedicalProfile
  | .raised => none
  | .ok p => p

/-- `RemedyFilter.CONTRAINDICATED_INGREDIENTS['diabetes']`. -/
def CONTRAINDICATED_diabetes : List String :=
  ["sugar", "honey", "jaggery", "maple syrup", "sweet",
   "dates", "raisins", "figs", "glucose", "candy", "brown sugar"]

/-- `RemedyFilter.CONTRAINDICATED_INGREDIENTS['hypertension']`. -/
def CONTRAINDICATED_hypertension : List String :=
  ["salt", "sodium", "pickle", "soy sauce", "processed meat",
   "cheese", "bacon", "sausage", "canned food", "salted", "brine"]

/-- `RemedyFilter.CONTRAINDICATED_INGREDIENTS['kidney_disease']`. -/
def CONTRAINDICATED_kidney_disease : List String :=
  ["salt", "banana", "orange", "tomato", "potato",
   "dairy", "nuts", "seeds", "whole grains", "avocado"]

/-- `RemedyFilter.CONTRAINDICATED_INGREDIENTS['pregnancy']`. -/
def CONTRAINDICATED_pregnancy : List String :=
  ["papaya", "pineapple", "raw eggs", "unpasteurized",
   "alcohol", "caffeine", "raw meat", "liver", "raw fish"]

/-- `RemedyFilter.CONTRAINDICATED_INGREDIENTS['heart_disease']`. -/
def CONTRAINDICATED_heart_disease : List String :=
  ["salt", "butter", "ghee", "coconut oil", "fried",
   "fatty meat", "full-fat dairy", "trans fat"]

/-- `remedy_filter.py` lines 86-123: the avoid set, built by unioning the
allergy terms (lower-cased) and the triggered conditions' ingredient
lists. The Python code uses a `set`; only membership is ever consulted
(lines 138-144), so a concatenated list is an equivalent model. The
allergy branch runs only when both `has_allergies` and the allergy list
are truthy. -/
def avoid_ingredients (p : MedicalProfile) : List String :=
  (if p.has_allergies && !p.allergies.isEmpty
     then p.allergies.map strLower else []) ++
  (if p.has_diabetes then CONTRAINDICATED_diabetes else []) ++
  (if p.has_hypertension then CONTRAINDICATED_hypertension else []) ++
  (if p.has_kidney_disease then CONTRAINDICATED_kidney_disease else []) ++
  (if p.is_pregnant then CONTRAINDICATED_pregnancy else []) ++
  (if p.has_heart_disease then CONTRAINDICATED_heart_disease else [])

/-- `remedy_filter.py` lines 89-123: one human-readable warning per
triggered condition, appended in the code's order (allergies, diabetes,
hypertension, kidney disease, pregnancy, heart disease). -/
def profile_warnings (p : MedicalProfile) : List String :=
  (if p.has_allergies && !p.allergies.isEmpty
     then ["Avoiding your allergies: " ++ strIntercalate ", " p.allergies]
     else []) ++
  (if p.has_diabetes
     then ["Avoiding high-sugar ingredients due to diabetes"] else []) ++
  (if p.has_hypertension
     then ["Avoiding high-sodium ingredients due to hypertension"] else []) ++
  (if p.has_kidney_disease
     then ["Avoiding kidney-restricted ingredients"] else []) ++
  (if p.is_pregnant
     then ["Avoiding pregnancy-unsafe ingredients"] else []) ++
  (if p.has_heart_disease
     then ["Avoiding heart-harmful ingredients"] else [])

/-- `RemedyFilter.filter_content_by_medical_profile` (lines 49-154),
as a function of the resolved profile. The `MEDICAL_DB_AVAILABLE = False`
early return (line 64-66) and the "lookup raised" path (lines 69-78)
both return `(content_chunks, [])`, the same value as the `profile = None`
case here. A chunk is kept iff no avoid-set term has a word-boundary
match in its lower-cased text (lines 129-150); the kept chunks are
accumulated in input order. -/
def filter_content_by_medical_profile
    (profile : Option MedicalProfile) (content_chunks : List String) :
    List String × List String :=
  match profile with
  | none => (content_chunks, [])
  | some p =>
    let avoid := avoid_ingredients p
    if avoid.isEmpty then (content_chunks, [])
    else
      (content_chunks.filter
        (fun chunk => !(avoid.any (fun ing => chunkMentions ing chunk))),
       profile_warnings p)

/-- `RemedyFilter.generate_medical_disclaimer` (lines 156-187): the
condition names enumerated in the code's order. -/
def disclaimer_conditions (p : MedicalProfile) : List String :=
  (if p.has_diabetes then ["diabetes"] else []) ++
  (if p.has_hypertension then ["high blood pressure"] else []) ++
  (if p.has_heart_disease then ["heart condition"] else []) ++
  (if p.has_kidney_disease then ["kidney disease"] else []) ++
  (if p.is_pregnant then ["pregnancy"] else []) ++
  (if p.has_allergies && !p.allergies.isEmpty
     then ["allergies to " ++ strIntercalate ", " p.allergies] else [])

/-- `RemedyFilter.generate_medical_disclaimer` (lines 156-187). -/
def generate_medical_disclaimer (profile : Option MedicalProfile) : String :=
  match profile with
  | none => ""
  | some p =>
    let conditions := disclaimer_conditions p
    if conditions.isEmpty then ""
    else
      "⚠️ Medical Note: Considering your " ++
        strIntercalate ", " conditions ++
        ", I've personalized these recommendations to exclude potentially harmful ingredients. Always consult your healthcare provider before trying new remedies."

/-- `filter_remedies_by_medical_profile` (lines 190-221): filters the
content and generates the disclaimer. Both the filter and the disclaimer
resolve the profile through `get_medical_profile_by_user_id`, modelled as
the one `lookup` outcome; a lookup that raised yields no profile (lines
207-213), hence an empty disclaimer. -/
def filter_remedies_by_medical_profile
    (lookup : ProfileLookup) (content : List String) :
    List String × List String × String :=
  let profile := lookupProfile lookup
  let fc := filter_content_by_medical_profile profile content
  (fc.1, fc.2, generate_medical_disclaimer profile)

/-! ## `retrieval/content_retrieval.py` -/

/-- `content_retrieval.py` lines 198-240 (`apply_medical_filtering`): the
guard on line 214 returns the chunks unchanged when filtering is
unavailable or there is no (truthy) user id; the `try/except` around the
filter call (lines 218-240) returns the original content with empty
warnings and disclaimer when anything inside raises
(`internalError = true`). -/
def apply_medical_filtering
    (filteringAvailable : Bool) (user_id : Option String)
    (internalError : Bool) (lookup : ProfileLookup)
    (content_chunks : List String) : List String × List String × String :=
  if !filteringAvailable || !strTruthy user_id then (content_chunks, [], "")
  else if internalError then (content_chunks, [], "")
  else filter_remedies_by_medical_profile lookup content_chunks

/-- Outcome of `retrieve_from_local_content(query, top_k)`
(`content_retrieval.py` lines 310-323): the call raised, or returned a
(possibly empty) chunk list. -/
inductive LocalOutcome where
  | raised
  | returned (chunks : List String)
deriving DecidableEq

/-- The response map `content_retrieval` builds (lines 356-370); the
timing fields are omitted. `retrieved_chunks` is `Option` because the
Python value can be `None` (the initial value when no source returned a
list). -/
structure RetrievalResult where
  retrieved_chunks : Option (List String)
  source : String
  medical_filtered : Bool
  medical_warnings : List String
  medical_disclaimer : String
  original_chunk_count : Nat
  filtered_chunk_count : Nat
  success : Bool
deriving DecidableEq

/-- `content_retrieval` (`content_retrieval.py` lines 243-384).

External calls are passed in as outcomes:
`primary` is `retrieve_from_farmstack_api`'s return value (that function
catches every exception internally and returns `Optional[List[str]]`,
lines 75-195); `localOutcome` is the local fallback call; `user_id` is
`get_user_id_from_email`'s return value (consulted only when
`apply_medical_filter` is set, lines 286-290); `lookup` is the medical
profile lookup inside the filter; `filterInternalError` is whether
`apply_medical_filtering`'s guarded body raised.

Line 342 (`if filtered_content is not None`) always takes the then-branch
because `apply_medical_filtering` always returns a list, so the filtered
branch sets `medical_filtered` unconditionally. -/
def content_retrieval
    (primary : Option (List String))
    (localAvailable : Bool) (localOutcome : LocalOutcome)
    (filteringAvailable : Bool) (user_id : Option String)
    (filterInternalError : Bool) (lookup : ProfileLookup)
    (apply_medical_filter : Bool) : RetrievalResult :=
  -- lines 286-290: the user id is looked up only when filtering is requested
  let uid := if apply_medical_filter then user_id else none
  -- lines 295-305: the primary FarmStack source
  let retrieved0 := primary
  let source0 : Option String :=
    if listTruthyO retrieved0 then some "farmstack" else none
  -- lines 310-323: the local fallback, only when the primary was falsy
  let step1 : Option (List String) × Option String :=
    if !listTruthyO retrieved0 && localAvailable then
      match localOutcome with
      | .raised => (none, source0)
      | .returned l => (some l, if !l.isEmpty then some "local" else source0)
    else (retrieved0, source0)
  let retrieved1 := step1.1
  let source1 := step1.2
  -- line 330
  let original_chunk_count :=
    match retrieved1 with
    | some l => l.length
    | none => 0
  -- lines 333-348: medical filtering
  let step2 : Option (List String) × Bool × List String × String :=
    if listTruthyO retrieved1 && apply_medical_filter && strTruthy uid then
      let fr := apply_medical_filtering filteringAvailable uid
        filterInternalError lookup (retrieved1.getD [])
      (some fr.1, true, fr.2.1, fr.2.2)
    else (retrieved1, false, [], "")
  let retrieved2 := step2.1
  -- lines 356-370: the response map
  { retrieved_chunks := retrieved2
    source := source1.getD "none"
    medical_filtered := step2.2.1
    medical_warnings := step2.2.2.1
    medical_disclaimer := step2.2.2.2
    original_chunk_count := original_chunk_count
    filtered_chunk_count :=
      match retrieved2 with
      | some l => l.length
      | none => 0
    success := listTruthyO retrieved2 }

/-! ## `rag_service/execute_rag.py` -/

/-- The part of `execute_rag_pipeline`'s `response_map` the claims are
about (`message_id` and the timing side-table are omitted). -/
structure RagResponseMap where
  generated_final_response : String
  source : Option String
  follow_up_questions : List String
deriving DecidableEq

/-- `execute_rag.py` lines 79-100: the fixed fallback answer used when no
content was retrieved, with the user name and original query
interpolated. The text after the interpolated query is split off as
`rag_fallback_tail` so that theorems can point at the
professional-consultation recommendation inside it. -/
def rag_fallback_tail : String :=
  "\"**\n\n**General Health Recommendations:**\n• Stay hydrated by drinking plenty of water 💧\n• Get adequate rest and sleep 😴  \n• Eat nutritious, balanced meals 🥗\n• Consider consulting a healthcare professional 👩‍⚕️\n\n**⚠️ Important Medical Disclaimer:**\nThese are general wellness suggestions. For specific medical concerns, please consult with a qualified healthcare professional.\n\n**🏥 When to Seek Medical Help:**\n• If symptoms persist or worsen\n• If you have severe or concerning symptoms  \n• If you have underlying health conditions\n• When in doubt about your health\n\n**Emergency:** If this is a medical emergency, please call emergency services immediately."

/-- `execute_rag.py` lines 79-100 (`fallback_response`). -/
def rag_fallback_response (user_name : Option String) (original_query : String) :
    String :=
  "Hello " ++ pyStr user_name ++
    "! 👋 \n\nI'm having trouble accessing my knowledge base right now, but I'm here to help with your health concerns.\n\n**For your query about: \"" ++
    original_query ++ rag_fallback_tail

/-- `execute_rag.py` line 189: the fallback when the LLM returned an empty
response. -/
def rag_gen_empty_fallback (user_name : Option String) : String :=
  "Hello " ++ pyStr user_name ++
    "! I found relevant information but had trouble generating a response. Please consult a healthcare professional. 🏥"

/-- `execute_rag.py` line 193: the fallback when the LLM call raised. -/
def rag_gen_error_fallback (user_name : Option String) : String :=
  "Hello " ++ pyStr user_name ++
    "! I found some information but had trouble processing it. Please consult a healthcare professional for reliable medical advice. 🏥"

/-- `execute_rag_pipeline` (`execute_rag.py` lines 19-249), restricted to
the `response_map` fields.

External stages are outcome parameters: `retrieval` is the
`content_retrieval` call (lines 60-72; on an exception the chunk data is
`None`), whose `retrieved_chunks` value can be `None`, `[]`, or a list;
`generation` is the LLM call (lines 176-193), whose `response` value can
be missing (`None`) or empty; `sourceFetch` is
`fetch_source_from_reranked_chunks` (lines 195-200). The rephrasing and
reranking stages only shape the text passed to those calls and never
touch the final `response_map` fields, so they are absorbed into the
outcome parameters. `outerError` models an exception escaping the inner
stages and reaching the outer `except` (lines 232-245). -/
def execute_rag_pipeline
    (user_name : Option String) (original_query : String)
    (retrieval : StageOutcome (Option (List String)))
    (generation : StageOutcome (Option String))
    (sourceFetch : StageOutcome String)
    (outerError : Bool) : RagResponseMap :=
  if outerError then
    -- lines 232-245: the outer except substitutes a full fallback map
    { generated_final_response :=
        "Hello " ++ (if strTruthy user_name then pyStr user_name else "there") ++
          "! I'm experiencing technical difficulties. For your health and safety, please consult a healthcare professional. 🏥"
      source := none
      follow_up_questions :=
        ["Contact your healthcare provider",
         "Visit urgent care if symptoms persist",
         "Call emergency services if severe"] }
  else
    -- lines 60-72: retrieval; an exception yields `None` chunk data
    let retrieved_chunks_data : Option (List String) :=
      match retrieval with
      | .raised => none
      | .ok r => r
    if !listTruthyO retrieved_chunks_data then
      -- lines 75-110: no content, fixed fallback answer
      { generated_final_response := rag_fallback_response user_name original_query
        source := none
        follow_up_questions :=
          ["Should I consult a doctor for this?",
           "What are general wellness tips?",
           "How do I know if this is serious?"] }
    else
      -- lines 176-193: generation with its two fallbacks
      let generated_final_response :=
        match generation with
        | .raised => rag_gen_error_fallback user_name
        | .ok none => rag_gen_empty_fallback user_name
        | .ok (some s) => if s == "" then rag_gen_empty_fallback user_name else s
      -- lines 195-200: source extraction with its fallback
      let content_source :=
        match sourceFetch with
        | .raised => "Healthcare Content"
        | .ok s => s
      -- lines 202-212
      { generated_final_response := generated_final_response
        source := some content_source
        follow_up_questions :=
          ["What are the warning signs I should watch for?",
           "How can I prevent this condition in the future?",
           "Are there any foods or activities I should avoid?",
           "When should I see a doctor for this condition?"] }

/-! ## `language_service/translation.py` -/

/-- Modelled from the spec: `Constants.LANGUAGE_SHORT_CODE_ENG` comes from
`common/constants.py`, which is not in the repository snapshot. Per the
spec's glossary the canonical language is English, written `"en"`
elsewhere in the code (`servvia_endpoint.py` line 197). -/
def LANGUAGE_SHORT_CODE_ENG : String := "en"

/-- `translation.py` lines 15-69: the Kannada medical phrase dictionary,
in source order (keys are unique, so an association list models the
Python dict lookup). -/
def KANNADA_MEDICAL_PHRASES : List (String × String) :=
  [("nanige jwara ide", "I have fever"),
   ("ನನಗೆ ಜ್ವರ ಇದೆ", "I have fever"),
   ("jwara", "fever"),
   ("ಜ್ವರ", "fever"),
   ("jwara bantide", "I got fever"),
   ("jwara ide", "there is fever"),
   ("nanige thalenovu ide", "I have headache"),
   ("ನನಗೆ ತಲೆನೋವು ಇದೆ", "I have headache"),
   ("thalenovu", "headache"),
   ("ತಲೆನೋವು", "headache"),
   ("thale novu", "headache"),
   ("tale novu", "head pain"),
   ("nanige kemmu ide", "I have cough"),
   ("ನನಗೆ ಕೆಮ್ಮು ಇದೆ", "I have cough"),
   ("kemmu", "cough"),
   ("ಕೆಮ್ಮು", "cough"),
   ("kemmu barthide", "I am coughing"),
   ("nanige sali ide", "I have cold"),
   ("ನನಗೆ ಶೀತ ಇದೆ", "I have cold"),
   ("sali", "cold"),
   ("sardi", "cold"),
   ("sardi ide", "have cold"),
   ("nanige hotte novu ide", "I have stomach pain"),
   ("ನನಗೆ ಹೊಟ್ಟೆ ನೋವು ಇದೆ", "I have stomach ache"),
   ("hotte novu", "stomach pain"),
   ("ಹೊಟ್ಟೆ ನೋವು", "stomach ache"),
   ("nanige shareera novu ide", "I have body pain"),
   ("ನನಗೆ ಶರೀರ ನೋವು ಇದೆ", "I have body ache"),
   ("shareera novu", "body pain"),
   ("ಶರೀರ ನೋವು", "body pain"),
   ("nanige kamjori ide", "I feel weak"),
   ("kamjori", "weakness"),
   ("nanige hanti barthide", "I am vomiting"),
   ("hanti", "vomiting"),
   ("nanige jolluhagu ide", "I have diarrhea"),
   ("jolluhagu", "loose motion")]

/-- `check_kannada_medical` (`translation.py` lines 72-90): exact
dictionary match of the lower-cased stripped text, then of the stripped
original text. -/
def check_kannada_medical (text : String) : Option String :=
  if text == "" then none
  else
    let text_lower := strStrip (strLower text)
    match KANNADA_MEDICAL_PHRASES.lookup text_lower with
    | some t => some t
    | none => KANNADA_MEDICAL_PHRASES.lookup (strStrip text)

/-- `detect_language_and_translate_to_english` (`translation.py` lines
128-162). `detected_language` and `confidence` are the detection
service's answer (line 146-148); `translation` is the outcome of
`a_translate_to_english` (a raised translation propagates, as the
function has no handler — the endpoint catches it). The confidence is
read and logged at line 148 and is not consulted by any branch. -/
def detect_language_and_translate_to_english
    (input_msg : String) (detected_language : String) (confidence : ℚ)
    (translation : StageOutcome String) :
    StageOutcome (String × String) :=
  -- Step 0 (lines 133-141): the Kannada medical dictionary fast path
  match check_kannada_medical input_msg with
  | some dict_translation => .ok (dict_translation, "kn")
  | none =>
    -- the confidence is logged, never branched on
    let _ := confidence
    -- Step 2 (lines 155-162): translate iff the detected code is not "en"
    if detected_language != LANGUAGE_SHORT_CODE_ENG then
      match translation with
      | .ok t => .ok (t, detected_language)
      | .raised => .raised
    else .ok (input_msg, detected_language)

/-- Python `target_language_code.split("-")[0]` when the code contains a
hyphen (`translation.py` line 173): the prefix before the first `-`. -/
def base_language (code : String) : String := ⟨code.data.takeWhile (· ≠ '-')⟩

/-- `translate_text_to_language` (`translation.py` lines 165-195):
the Google call is made with `base_language target_language_code` as the
target; `service` is its outcome. The surrounding `try/except` returns
the input text unchanged when the call raised. -/
def translate_text_to_language (text : String) (target_language_code : String)
    (service : StageOutcome String) : String :=
  let _ := base_language target_language_code
  match service with
  | .ok translated => translated
  | .raised => text

/-! ## `api/servvia_endpoint.py` -/

/-- `clean_ai_response_formatting` helper: the bullet characters of the
pattern `^[•●○]\s*` (`servvia_endpoint.py` line 76). -/
def isBulletChar (c : Char) : Bool := c == '•' || c == '●' || c == '○'

/-- `re.sub(r"^[•●○]\s*", "", text, flags=re.MULTILINE)` over the
character list. `atStart` is whether the current position is a line start
(position 0 or just after a newline). After a match the scan resumes
behind the consumed `\s*` run, which is a line start exactly when the
last consumed whitespace character was a newline. -/
def stripBulletsGo (atStart : Bool) (l : List Char) : List Char :=
  match l with
  | [] => []
  | c :: rest =>
    if atStart && isBulletChar c then
      stripBulletsGo ((rest.takeWhile Char.isWhitespace).getLast? == some '\n')
        (rest.dropWhile Char.isWhitespace)
    else c :: stripBulletsGo (c == '\n') rest
termination_by l.length
decreasing_by
  · exact Nat.lt_succ_of_le ((List.dropWhile_suffix _).length_le)
  · exact Nat.lt_succ_self _

/-- `re.sub(r"^\d+\.\s*", "", text, flags=re.MULTILINE)` over the
character list: at a line start, a maximal digit run followed by `.`
and a `\s*` run is removed. When the digit run is not followed by `.`
there is no match at this position (nor inside the run, which contains
no line start), so the characters are emitted unchanged. -/
def stripNumberedGo (atStart : Bool) (l : List Char) : List Char :=
  match l with
  | [] => []
  | c :: rest =>
    if atStart && c.isDigit then
      -- `c` is a digit here, so the maximal digit run of `c :: rest` is
      -- `c` followed by the digit run of `rest`
      match h : rest.dropWhile Char.isDigit with
      | '.' :: rest2 =>
        stripNumberedGo
          ((rest2.takeWhile Char.isWhitespace).getLast? == some '\n')
          (rest2.dropWhile Char.isWhitespace)
      | _ => c :: stripNumberedGo false rest
    else c :: stripNumberedGo (c == '\n') rest
termination_by l.length
decreasing_by
  · rename_i t hc
    have h1 : (List.dropWhile Char.isWhitespace rest2).length ≤ rest2.length :=
      (List.dropWhile_suffix _).length_le
    have h2 : ('.' :: rest2).length ≤ t.length :=
      h ▸ (List.dropWhile_suffix _).length_le
    simp only [List.length_cons] at h2 ⊢
    omega
  · simp
  · simp

/-- `clean_ai_response_formatting` (`servvia_endpoint.py` lines 67-81):
strip leading bullet markers, then leading numbered-list markers, at
every line start. A falsy input (`""`) is returned unchanged, which both
substitutions also do. -/
def clean_ai_response_formatting (text : String) : String :=
  ⟨stripNumberedGo true (stripBulletsGo true text.data)⟩

/-- `servvia_endpoint.py` lines 239-243: the fixed greeting keyword list. -/
def greeting_keywords : List String :=
  ["hello", "hi", "hey", "help", "what can you", "start", "begin",
   "greetings", "good morning", "good afternoon", "good evening",
   "hola", "bonjour", "namaste", "howdy", "sup", "yo"]

/-- `servvia_endpoint.py` line 246:
`any(keyword in english_query.lower() for keyword in greeting_keywords)` —
plain substring containment against the lower-cased query. -/
def is_greeting (english_query : String) : Bool :=
  greeting_keywords.any (fun k => k.data <:+: (strLower english_query).data)

/-- `servvia_endpoint.py` lines 252-261: the fixed welcome message. -/
def welcome_message : String :=
  "🏥 Hello! I'm ServVia.AI, your healthcare assistant. I can help you with:\n\nMedical advice and information\nSymptom checking\nHome remedies\nMedication guidance\nSkin disease analysis (upload images)\nHealth tips based on your medical profile\n\nHow can I assist you today?"

/-- `servvia_endpoint.py` lines 319-333: the endpoint's own condition
enumeration for its disclaimer (order and wording differ from
`RemedyFilter.generate_medical_disclaimer`: heart and kidney come before
allergies, and allergies before pregnancy). -/
def servvia_disclaimer_conditions (p : MedicalProfile) : List String :=
  (if p.has_diabetes then ["diabetes"] else []) ++
  (if p.has_hypertension then ["high blood pressure"] else []) ++
  (if p.has_heart_disease then ["heart condition"] else []) ++
  (if p.has_kidney_disease then ["kidney disease"] else []) ++
  (if p.has_allergies && !p.allergies.isEmpty
     then ["allergies to " ++ strIntercalate ", " p.allergies] else []) ++
  (if p.is_pregnant then ["pregnancy"] else [])

/-- `servvia_endpoint.py` lines 313-337: the disclaimer the endpoint
builds from the profile it looked up (empty when there is no profile or
no triggered condition). -/
def servvia_medical_disclaimer (profile : Option MedicalProfile) : String :=
  match profile with
  | none => ""
  | some p =>
    let conditions := servvia_disclaimer_conditions p
    if conditions.isEmpty then ""
    else
      "⚠️ Medical Note: Considering your " ++
        strIntercalate ", " conditions ++
        ", I've personalized these recommendations for your safety. Always consult your healthcare provider before trying new remedies."

/-- The guarded translation step used for the welcome message (lines
266-275) and the final response (lines 456-470): translate only when the
translation service is available and the detected language is truthy and
not `"en"`; a failed translation keeps the English text. -/
def localize_response (translation_available : Bool)
    (detected_language : String) (service : StageOutcome String)
    (healthcare_response_english : String) : String :=
  if translation_available && detected_language != "" &&
      strLower detected_language != "en" then
    translate_text_to_language healthcare_response_english detected_language
      service
  else healthcare_response_english

/-- `servvia_endpoint.py` line 394: the direct safety message when the
medical filter removed every chunk. The fixed text between the two
interpolations is `all_filtered_mid`, so theorems can point at it. -/
def all_filtered_mid : String :=
  "! Based on your medical profile, I couldn't find remedies that are safe for your specific conditions regarding '"

/-- `servvia_endpoint.py` line 394 (`healthcare_response_english` in the
all-content-filtered branch). -/
def all_filtered_message (user_name original_query : String) : String :=
  "Hello " ++ user_name ++ all_filtered_mid ++ original_query ++
    "'. Please consult your healthcare provider for personalized advice. 🏥"

/-- `servvia_endpoint.py` lines 424, 429, 433: quoting the top chunk
(truncated to 500 characters) when generation is unavailable, empty, or
raised. -/
def based_on_available (user_name : String) (chunks : List String) : String :=
  "Hello " ++ user_name ++ "! Based on available information:\n\n" ++
    strTake (chunks.headD "") 500 ++ "..."

/-- `servvia_endpoint.py` lines 349-445 (STEP 3 - STEP 5): FarmStack
retrieval, the endpoint's second medical filter pass, and generation.
Returns `(healthcare_response_english, content_source,
medical_disclaimer)` as they stand after STEP 5.

`retrieval` is the `retrieve_content_from_api` call (line 365; the
surrounding `except` at lines 439-442 handles a raise); `lookup` is the
profile lookup `filter_remedies_by_medical_profile` performs internally
(line 381); `generation` is the OpenAI call (lines 406-415), whose
`response` value may be missing. -/
def servvia_content_stage
    (user_name original_query : String)
    (farmstack_available medical_filtering_available generation_available :
      Bool)
    (medical_profile : Option MedicalProfile) (user_id : Option String)
    (medical_disclaimer : String) (lookup : ProfileLookup)
    (retrieval : StageOutcome (Option (List String)))
    (generation : StageOutcome (Option String)) :
    String × Option String × String :=
  if farmstack_available then
    match retrieval with
    | .raised =>
      ("Hello " ++ user_name ++
         "! I'm experiencing technical difficulties accessing the healthcare database. Please consult a healthcare professional for medical advice. 🏥",
       none, medical_disclaimer)
    | .ok rc =>
      if listTruthyO rc then
        let l := rc.getD []
        -- STEP 4 (lines 378-395): the second medical filter pass
        let step4 : List String × String :=
          if medical_filtering_available && medical_profile.isSome &&
              strTruthy user_id then
            let fr := filter_remedies_by_medical_profile lookup l
            if !fr.1.isEmpty then
              (fr.1, if fr.2.2 != "" then fr.2.2 else medical_disclaimer)
            else ([], medical_disclaimer)
          else (l, medical_disclaimer)
        let retained := step4.1
        -- STEP 5 (lines 400-433): generation, or the all-filtered message
        -- set at line 394 (`retained = []` arises only from that branch,
        -- since `l` is non-empty here)
        let resp :=
          if retained.isEmpty then
            all_filtered_message user_name original_query
          else if generation_available then
            match generation with
            | .raised => based_on_available user_name retained
            | .ok none => based_on_available user_name retained
            | .ok (some s) =>
              let cleaned := clean_ai_response_formatting s
              if cleaned != "" then cleaned
              else based_on_available user_name retained
          else based_on_available user_name retained
        (resp, some "FarmStack Knowledge Base", step4.2)
      else
        ("Hello " ++ user_name ++ "! I couldn't find specific information about '"
           ++ original_query ++
           "' in my healthcare knowledge base. For your health and safety, please consult a healthcare professional. 🏥",
         none, medical_disclaimer)
  else
    ("Hello " ++ user_name ++ "! I understand you're asking about '" ++
       original_query ++
       "'. For your health and safety, please consult a healthcare professional for specific medical advice. 🏥",
     none, medical_disclaimer)

/-- The JSON body `get_answer_for_text_query` returns for a POST with a
non-empty query (lines 281-297 for a greeting, lines 475-490 otherwise);
the `answer`, `message` and `response` keys always carry the same string,
modelled once as `answer`. The non-greeting body has no `is_greeting`
key, modelled as `false`. -/
structure EndpointResponse where
  success : Bool
  answer : String
  source : String
  user : String
  detected_language : String
  medical_profile_applied : Bool
  content_filtered : Bool
  ai_generated : Bool
  is_greeting : Bool
deriving DecidableEq

/-- The POST handler of `get_answer_for_text_query`
(`servvia_endpoint.py` lines 236-495), from the greeting check (STEP 1.5)
on; request parsing, user-name resolution and language detection (STEP 1)
have already produced `user_name`, `english_query` and
`detected_language`.

`lookup` jointly models STEP 2's `User.get` + profile fetch (lines
306-341): a raise leaves no profile; `user_id` is the id obtained when
the lookup succeeded (when the lookup raised after setting `user_id`,
the profile is `None` and `user_id` is never consulted — STEP 4's guard
requires the profile — so collapsing to `none` is observationally
equal). `welcome_translation` / `response_translation` are the
translation calls of STEP 1.5 / STEP 7. -/
def servvia_post
    (user_name original_query english_query detected_language : String)
    (user_model_available translation_available farmstack_available
      medical_filtering_available generation_available : Bool)
    (welcome_translation response_translation : StageOutcome String)
    (lookup : ProfileLookup) (user_id : Option String)
    (retrieval : StageOutcome (Option (List String)))
    (generation : StageOutcome (Option String)) : EndpointResponse :=
  if is_greeting english_query then
    -- STEP 1.5 (lines 248-297): immediate welcome, nothing else runs
    { success := true
      answer := localize_response translation_available detected_language
        welcome_translation welcome_message
      source := "ServVia.AI"
      user := user_name
      detected_language := detected_language
      medical_profile_applied := false
      content_filtered := false
      ai_generated := false
      is_greeting := true }
  else
    -- STEP 2 (lines 302-341)
    let profileInfo : Option String × Option MedicalProfile :=
      if user_model_available && medical_filtering_available then
        match lookup with
        | .raised => (none, none)
        | .ok p => (user_id, p)
      else (none, none)
    let medical_profile := profileInfo.2
    let medical_disclaimer := servvia_medical_disclaimer medical_profile
    -- STEP 3 - STEP 5 (lines 346-445)
    let stage := servvia_content_stage user_name original_query
      farmstack_available medical_filtering_available generation_available
      medical_profile profileInfo.1 medical_disclaimer lookup retrieval
      generation
    -- STEP 6 (lines 450-451)
    let resp2 :=
      if stage.2.2 != "" && stage.1 != "" then
        stage.2.2 ++ "\n\n" ++ stage.1
      else stage.1
    -- STEP 7 (lines 456-470)
    let final := localize_response translation_available detected_language
      response_translation resp2
    -- STEP 8 (lines 475-490)
    { success := true
      answer := final
      source := stage.2.1.getD "FarmStack"
      user := user_name
      detected_language := detected_language
      medical_profile_applied := medical_profile.isSome
      content_filtered := medical_filtering_available && medical_profile.isSome
      ai_generated := generation_available
      is_greeting := false }

/-! ## Helper lemmas -/

/-- A string whose left append part is non-empty is non-empty. -/
theorem strAppendLeft_ne_empty (a b : String) (h : a ≠ "") : a ++ b ≠ "" := by
  intro he
  apply h
  have hd : a.data ++ b.data = [] := by
    have hc := congrArg String.data he
    rwa [String.data_append] at hc
  exact String.ext (List.append_eq_nil.mp hd).1

/-- An infix of `s` is an infix of `pre ++ s`. -/
theorem strInfix_append_left (pre s : String) {n : List Char}
    (h : n <:+: s.data) : n <:+: (pre ++ s).data := by
  rw [String.data_append]
  exact h.trans (List.suffix_append pre.data s.data).isInfix

/-- An infix of `s` is an infix of `s ++ post`. -/
theorem strInfix_append_right (s post : String) {n : List Char}
    (h : n <:+: s.data) : n <:+: (s ++ post).data := by
  rw [String.data_append]
  exact h.trans (List.prefix_append s.data post.data).isInfix

/-- The safe part of `filter_content_by_medical_profile` is a sublist of
the input chunks, for every resolved profile. -/
theorem filter_content_sublist (profile : Option MedicalProfile)
    (chunks : List String) :
    (filter_content_by_medical_profile profile chunks).1.Sublist chunks := by
  cases profile with
  | none => exact List.Sublist.refl chunks
  | some p =>
    simp only [filter_content_by_medical_profile]
    by_cases h : (avoid_ingredients p).isEmpty
    · simp only [h, if_true]
      exact List.Sublist.refl chunks
    · simp only [h, if_false]
      exact List.filter_sublist chunks

/-! ## Claims -/

/-- C1: for every profile lookup outcome and chunk list, the safe chunks
returned by `filter_content_by_medical_profile` and by
`filter_remedies_by_medical_profile` are an order-preserving subsequence
(`List.Sublist`) of the input chunks: no chunk is invented, modified,
duplicated, or reordered. -/
theorem filter_safe_chunks_sublist (profile : Option MedicalProfile)
    (lookup : ProfileLookup) (chunks : List String) :
    (filter_content_by_medical_profile profile chunks).1.Sublist chunks ∧
    (filter_remedies_by_medical_profile lookup chunks).1.Sublist chunks :=
  ⟨filter_content_sublist profile chunks,
   filter_content_sublist (lookupProfile lookup) chunks⟩

/-- The scenario profile of C2: diabetes plus a peanut allergy. -/
def diabetes_peanuts_profile : MedicalProfile :=
  { has_diabetes := true, has_allergies := true, allergies := ["peanuts"] }

/-- C2: for the profile with diabetes and allergies `["peanuts"]` and the
chunks `["Add honey to tea for sore throat", "Drink warm water with
lemon"]`, filtering keeps exactly the lemon chunk (the honey chunk is
dropped by the word-boundary match on "honey"), the warnings include the
diabetes entry, and the disclaimer is non-empty and mentions
"diabetes". -/
theorem diabetes_honey_scenario :
    filter_remedies_by_medical_profile (.ok (some diabetes_peanuts_profile))
        ["Add honey to tea for sore throat", "Drink warm water with lemon"] =
      (["Drink warm water with lemon"],
       ["Avoiding your allergies: peanuts",
        "Avoiding high-sugar ingredients due to diabetes"],
       "⚠️ Medical Note: Considering your diabetes, allergies to peanuts, I've personalized these recommendations to exclude potentially harmful ingredients. Always consult your healthcare provider before trying new remedies.") ∧
    "Avoiding high-sugar ingredients due to diabetes" ∈
      (filter_remedies_by_medical_profile (.ok (some diabetes_peanuts_profile))
        ["Add honey to tea for sore throat", "Drink warm water with lemon"]).2.1 ∧
    (filter_remedies_by_medical_profile (.ok (some diabetes_peanuts_profile))
        ["Add honey to tea for sore throat", "Drink warm water with lemon"]).2.2
      ≠ "" ∧
    "diabetes".data <:+:
      (filter_remedies_by_medical_profile (.ok (some diabetes_peanuts_profile))
        ["Add honey to tea for sore throat", "Drink warm water with lemon"]).2.2.data := by
  decide

/-- C4: the filter stage fails open. A profile lookup that raised makes
`filter_remedies_by_medical_profile` return the chunks unchanged with no
warnings and an empty disclaimer; an internal error inside
`apply_medical_filtering`'s guarded body does the same; and the
raised-lookup path through `apply_medical_filtering` does too. All three
are total functions, so no exception reaches the caller. -/
theorem filter_fails_open (chunks : List String) (avail : Bool)
    (uid : Option String) (lookup : ProfileLookup) :
    filter_remedies_by_medical_profile .raised chunks = (chunks, [], "") ∧
    apply_medical_filtering avail uid true lookup chunks = (chunks, [], "") ∧
    apply_medical_filtering true (some "user-1") false .raised chunks =
      (chunks, [], "") := by
  refine ⟨rfl, ?_, rfl⟩
  simp only [apply_medical_filtering]
  split
  · rfl
  · rfl

/-- C5: with no profile, or with a profile whose condition flags are all
false and whose allergy list is empty (an empty avoid set), the filter is
the identity on the chunks and returns no warnings. -/
theorem empty_profile_identity (p : MedicalProfile) (chunks : List String)
    (hd : p.has_diabetes = false) (hh : p.has_hypertension = false)
    (hk : p.has_kidney_disease = false) (hp : p.is_pregnant = false)
    (hc : p.has_heart_disease = false) (ha : p.allergies = []) :
    filter_content_by_medical_profile none chunks = (chunks, []) ∧
    filter_content_by_medical_profile (some p) chunks = (chunks, []) := by
  refine ⟨rfl, ?_⟩
  have hav : avoid_ingredients p = [] := by
    simp [avoid_ingredients, hd, hh, hk, hp, hc, ha]
  simp [filter_content_by_medical_profile, hav]

/-- Witness for C5 at a concrete all-false profile and chunk list. -/
theorem empty_profile_identity_witness :
    filter_content_by_medical_profile (some {}) ["chunk a", "chunk b"] =
      (["chunk a", "chunk b"], []) :=
  (empty_profile_identity {} ["chunk a", "chunk b"]
    rfl rfl rfl rfl rfl rfl).2

/-- A diabetes-only profile, used by the C3 counterexample. -/
def diabetes_profile : MedicalProfile := { has_diabetes := true }

/-- C3 (counterexample): when filtering removes every chunk, the returned
warnings list holds only the per-condition warnings — there is no
distinct "all content filtered" entry (the code merely logs that case):
for a diabetes profile and the single chunk "Add honey to tea for sore
throat", the filter returns an empty safe list and exactly the one
diabetes warning, whose text does not even contain "filtered". -/
theorem all_filtered_no_distinct_warning :
    filter_remedies_by_medical_profile (.ok (some diabetes_profile))
        ["Add honey to tea for sore throat"] =
      ([], ["Avoiding high-sugar ingredients due to diabetes"],
       "⚠️ Medical Note: Considering your diabetes, I've personalized these recommendations to exclude potentially harmful ingredients. Always consult your healthcare provider before trying new remedies.") ∧
    ¬ ("filtered".data <:+:
        "Avoiding high-sugar ingredients due to diabetes".data) := by
  decide

/-- C3 (amended): when the filter removes every chunk it returns an empty
safe list together with the per-condition warnings only (no distinct
"all content filtered" warning is added — that case is only logged), and
the endpoint converts the empty safe list into a direct safety message
(the line-394 text) instead of attempting generation: the response is
independent of the generation outcome. Stated for a canonical-language
request (`strLower detected_language = "en"`), so the final answer is
the English text. -/
theorem all_filtered_direct_safety_message
    (user_name original_query english_query detected_language : String)
    (ta ga : Bool) (wt rt : StageOutcome String)
    (lookup : ProfileLookup) (uid : Option String) (l : List String)
    (gen gen2 : StageOutcome (Option String))
    (p : MedicalProfile)
    (hng : is_greeting english_query = false)
    (hprof : lookupProfile lookup = some p)
    (huid : strTruthy uid = true)
    (hl : l ≠ [])
    (hall : (filter_remedies_by_medical_profile lookup l).1 = [])
    (hen : strLower detected_language = "en") :
    (filter_remedies_by_medical_profile lookup l).2.1 = profile_warnings p ∧
    all_filtered_mid.data <:+:
      (servvia_post user_name original_query english_query detected_language
        true ta true true ga wt rt lookup uid (.ok (some l)) gen).answer.data ∧
    servvia_post user_name original_query english_query detected_language
        true ta true true ga wt rt lookup uid (.ok (some l)) gen =
      servvia_post user_name original_query english_query detected_language
        true ta true true ga wt rt lookup uid (.ok (some l)) gen2 := by
  -- the lookup returned the profile `p`
  cases lookup with
  | raised => simp [lookupProfile] at hprof
  | ok po =>
    simp only [lookupProfile] at hprof
    subst hprof
    have hlf : l.isEmpty = false := by simp [hl]
    -- the filter took the non-empty-avoid-set branch
    have hwarn :
        (filter_remedies_by_medical_profile (.ok (some p)) l).2.1 =
          profile_warnings p := by
      by_cases hav : (avoid_ingredients p).isEmpty
      · exfalso
        apply hl
        have h1 : (filter_remedies_by_medical_profile (.ok (some p)) l).1 = l := by
          simp [filter_remedies_by_medical_profile, lookupProfile,
            filter_content_by_medical_profile, hav]
        rw [h1] at hall
        exact hall
      · simp [filter_remedies_by_medical_profile, lookupProfile,
          filter_content_by_medical_profile, hav]
    -- the endpoint reduces to the direct safety message, whatever the
    -- generation outcome
    have hpost : ∀ g : StageOutcome (Option String),
        servvia_post user_name original_query english_query detected_language
          true ta true true ga wt rt (.ok (some p)) uid (.ok (some l)) g =
        { success := true
          answer :=
            if servvia_medical_disclaimer (some p) != "" &&
                all_filtered_message user_name original_query != "" then
              servvia_medical_disclaimer (some p) ++ "\n\n" ++
                all_filtered_message user_name original_query
            else all_filtered_message user_name original_query
          source := "FarmStack Knowledge Base"
          user := user_name
          detected_language := detected_language
          medical_profile_applied := true
          content_filtered := true
          ai_generated := ga
          is_greeting := false } := by
      intro g
      simp [servvia_post, hng, servvia_content_stage, listTruthyO, hlf,
        huid, hall, localize_response, hen]
    refine ⟨hwarn, ?_, (hpost gen).trans (hpost gen2).symm⟩
    rw [hpost gen]
    have hmid : all_filtered_mid.data <:+:
        (all_filtered_message user_name original_query).data := by
      unfold all_filtered_message
      exact strInfix_append_right _ _ (strInfix_append_right _ _
        (strInfix_append_left _ _ List.infix_rfl))
    by_cases hif : (servvia_medical_disclaimer (some p) != "" &&
        all_filtered_message user_name original_query != "") = true
    · simp only [hif, if_true]
      exact strInfix_append_left _ _ hmid
    · simp only [hif, if_false]
      exact hmid

/-- Witness for the amended C3 at a concrete request whose single chunk
is removed by a diabetes profile. -/
theorem all_filtered_direct_safety_message_witness :
    (filter_remedies_by_medical_profile (.ok (some diabetes_profile))
        ["Add honey to tea for sore throat"]).2.1 =
      profile_warnings diabetes_profile ∧
    all_filtered_mid.data <:+:
      (servvia_post "User" "dog bite" "dog bite" "en"
        true true true true true (.ok "w") (.ok "r")
        (.ok (some diabetes_profile)) (some "1")
        (.ok (some ["Add honey to tea for sore throat"]))
        (.ok (some "g"))).answer.data ∧
    servvia_post "User" "dog bite" "dog bite" "en"
        true true true true true (.ok "w") (.ok "r")
        (.ok (some diabetes_profile)) (some "1")
        (.ok (some ["Add honey to tea for sore throat"]))
        (.ok (some "g")) =
      servvia_post "User" "dog bite" "dog bite" "en"
        true true true true true (.ok "w") (.ok "r")
        (.ok (some diabetes_profile)) (some "1")
        (.ok (some ["Add honey to tea for sore throat"]))
        .raised :=
  all_filtered_direct_safety_message "User" "dog bite" "dog bite" "en"
    true true (.ok "w") (.ok "r") (.ok (some diabetes_profile)) (some "1")
    ["Add honey to tea for sore throat"] (.ok (some "g")) .raised
    diabetes_profile (by decide) rfl (by decide) (by decide) (by decide)
    (by decide)

/-- C6 (counterexample): when the primary source yields nothing and the
local fallback is unavailable, the `retrieved_chunks` field of the
result map is `None` — not a (possibly empty) sequence. -/
theorem retrieval_chunks_can_be_none :
    (content_retrieval none false .raised true none false (.ok none)
      true).retrieved_chunks = none ∧
    (content_retrieval none false .raised true none false (.ok none)
      true).retrieved_chunks.isSome = false := by
  constructor
  · rfl
  · rfl

/-- C6 (amended): `content_retrieval` is a total function of the query
data and the external-call outcomes (so it never raises and always
returns a result map); the local fallback is consulted only when the
primary source yielded no chunks — for a non-empty primary result the
result map does not depend on the local outcome at all; and when both
sources yield nothing the map reports an empty result through the same
fields as any failure (`success = false`, falsy `retrieved_chunks`,
which is `None` unless a source returned an explicit empty list), not
through a distinguishable error shape. -/
theorem content_retrieval_contract :
    (∀ (l : List String) (la : Bool) (lo lo2 : LocalOutcome) (fa : Bool)
       (uid : Option String) (ie : Bool) (lookup : ProfileLookup)
       (amf : Bool), l ≠ [] →
       content_retrieval (some l) la lo fa uid ie lookup amf =
         content_retrieval (some l) la lo2 fa uid ie lookup amf) ∧
    (∀ (primary : Option (List String)) (la : Bool) (lo : LocalOutcome)
       (fa : Bool) (uid : Option String) (ie : Bool)
       (lookup : ProfileLookup) (amf : Bool),
       listTruthyO primary = false →
       (la = false ∨ lo = .raised ∨ lo = .returned []) →
       (content_retrieval primary la lo fa uid ie lookup amf).success =
           false ∧
         listTruthyO (content_retrieval primary la lo fa uid ie lookup
           amf).retrieved_chunks = false) := by
  constructor
  · intro l la lo lo2 fa uid ie lookup amf hl
    have hlf : l.isEmpty = false := by simp [hl]
    simp [content_retrieval, listTruthyO, hlf]
  · intro primary la lo fa uid ie lookup amf hp hcase
    have hpn : primary = none ∨ primary = some [] := by
      cases primary with
      | none => exact Or.inl rfl
      | some l =>
        cases l with
        | nil => exact Or.inr rfl
        | cons a t => simp [listTruthyO] at hp
    rcases hcase with h | h | h
    · subst h
      rcases hpn with h0 | h0 <;> subst h0 <;>
        simp [content_retrieval, listTruthyO]
    · subst h
      rcases hpn with h0 | h0 <;> subst h0 <;> cases la <;>
        simp [content_retrieval, listTruthyO]
    · subst h
      rcases hpn with h0 | h0 <;> subst h0 <;> cases la <;>
        simp [content_retrieval, listTruthyO]

/-- Witness for the amended C6: a concrete non-empty primary result is
local-independent, and a concrete double-empty retrieval reports
`success = false` with falsy chunks. -/
theorem content_retrieval_contract_witness :
    content_retrieval (some ["c"]) true .raised true none false (.ok none)
        true =
      content_retrieval (some ["c"]) true (.returned ["x"]) true none false
        (.ok none) true ∧
    (content_retrieval none true .raised true none false (.ok none)
        true).success = false ∧
    listTruthyO (content_retrieval none true .raised true none false
      (.ok none) true).retrieved_chunks = false :=
  ⟨content_retrieval_contract.1 ["c"] true .raised (.returned ["x"]) true
      none false (.ok none) true (by decide),
   content_retrieval_contract.2 none true .raised true none false
      (.ok none) true (by decide) (Or.inr (Or.inl rfl))⟩

/-- The no-content fallback answer of the RAG pipeline is non-empty. -/
theorem rag_fallback_response_ne_empty (u : Option String) (q : String) :
    rag_fallback_response u q ≠ "" := by
  unfold rag_fallback_response
  exact strAppendLeft_ne_empty _ _ (strAppendLeft_ne_empty _ _
    (strAppendLeft_ne_empty _ _ (strAppendLeft_ne_empty _ _ (by decide))))

/-- The empty-generation fallback answer is non-empty. -/
theorem rag_gen_empty_fallback_ne_empty (u : Option String) :
    rag_gen_empty_fallback u ≠ "" := by
  unfold rag_gen_empty_fallback
  exact strAppendLeft_ne_empty _ _ (strAppendLeft_ne_empty _ _ (by decide))

/-- The raised-generation fallback answer is non-empty. -/
theorem rag_gen_error_fallback_ne_empty (u : Option String) :
    rag_gen_error_fallback u ≠ "" := by
  unfold rag_gen_error_fallback
  exact strAppendLeft_ne_empty _ _ (strAppendLeft_ne_empty _ _ (by decide))

/-- The no-content fallback answer recommends consulting a healthcare
professional. -/
theorem consult_in_rag_fallback (u : Option String) (q : String) :
    "Consider consulting a healthcare professional".data <:+:
      (rag_fallback_response u q).data := by
  unfold rag_fallback_response
  have h0 : "Consider consulting a healthcare professional".data <:+:
      rag_fallback_tail.data := by decide
  exact strInfix_append_left _ _ h0

/-- C7: the RAG pipeline's final answer is never empty — for every
combination of stage outcomes, including an exception escaping to the
outer handler, `generated_final_response` is a non-empty string — and
whenever retrieval yields no chunks (raised, `None`, or an empty list),
the answer is the fixed fallback text, which recommends consulting a
healthcare professional. -/
theorem rag_final_answer_never_empty :
    (∀ (u : Option String) (q : String)
       (retr : StageOutcome (Option (List String)))
       (gen : StageOutcome (Option String)) (sf : StageOutcome String)
       (oe : Bool),
       (execute_rag_pipeline u q retr gen sf oe).generated_final_response
         ≠ "") ∧
    (∀ (u : Option String) (q : String)
       (retr : StageOutcome (Option (List String)))
       (gen : StageOutcome (Option String)) (sf : StageOutcome String),
       listTruthyO (match retr with | .raised => none | .ok r => r) =
         false →
       "Consider consulting a healthcare professional".data <:+:
         (execute_rag_pipeline u q retr gen sf
           false).generated_final_response.data) := by
  constructor
  · intro u q retr gen sf oe
    cases oe with
    | true =>
      exact strAppendLeft_ne_empty _ _
        (strAppendLeft_ne_empty _ _ (by decide))
    | false =>
      cases retr with
      | raised => exact rag_fallback_response_ne_empty u q
      | ok r =>
        cases r with
        | none => exact rag_fallback_response_ne_empty u q
        | some l =>
          cases l with
          | nil => exact rag_fallback_response_ne_empty u q
          | cons a t =>
            cases gen with
            | raised => exact rag_gen_error_fallback_ne_empty u
            | ok v =>
              cases v with
              | none => exact rag_gen_empty_fallback_ne_empty u
              | some s =>
                show (if s == "" then rag_gen_empty_fallback u else s) ≠ ""
                by_cases hs : (s == "") = true
                · rw [if_pos hs]
                  exact rag_gen_empty_fallback_ne_empty u
                · rw [if_neg hs]
                  exact fun he => hs (by rw [he]; rfl)
  · intro u q retr gen sf h
    cases retr with
    | raised => exact consult_in_rag_fallback u q
    | ok r =>
      cases r with
      | none => exact consult_in_rag_fallback u q
      | some l =>
        cases l with
        | nil => exact consult_in_rag_fallback u q
        | cons a t => simp [listTruthyO] at h

/-- Witness for C7 at a fully failed retrieval. -/
theorem rag_final_answer_never_empty_witness :
    (execute_rag_pipeline (some "Asha") "fever" .raised .raised .raised
      false).generated_final_response ≠ "" ∧
    "Consider consulting a healthcare professional".data <:+:
      (execute_rag_pipeline (some "Asha") "fever" .raised .raised .raised
        false).generated_final_response.data :=
  ⟨rag_final_answer_never_empty.1 (some "Asha") "fever" .raised .raised
      .raised false,
   rag_final_answer_never_empty.2 (some "Asha") "fever" .raised .raised
      .raised rfl⟩

/-- C8 (counterexample): the detection step does translate at a
confidence of 0 (below any configured floor): for the non-dictionary
Kannada-detected input "hege iddira" with confidence 0, the function
returns the translation service's output, not the input unchanged. -/
theorem confidence_zero_still_translates :
    detect_language_and_translate_to_english "hege iddira" "kn" 0
        (.ok "how are you") = .ok ("how are you", "kn") ∧
    ("how are you" : String) ≠ "hege iddira" := by
  decide

/-- C8 (amended): `detect_language_and_translate_to_english` ignores the
detection confidence entirely — the result is the same for every
confidence value — and (outside the Kannada dictionary fast path)
translates iff the detected language differs from `"en"`, returning the
text unchanged exactly when the detected language is `"en"`. -/
theorem detect_translates_iff_not_english
    (msg det : String) (c1 c2 : ℚ) (tr : StageOutcome String)
    (hdict : check_kannada_medical msg = none) :
    detect_language_and_translate_to_english msg det c1 tr =
      detect_language_and_translate_to_english msg det c2 tr ∧
    (det ≠ "en" →
      detect_language_and_translate_to_english msg det c1 tr =
        (match tr with
         | .ok t => .ok (t, det)
         | .raised => .raised)) ∧
    (det = "en" →
      detect_language_and_translate_to_english msg det c1 tr =
        .ok (msg, det)) := by
  refine ⟨?_, ?_, ?_⟩
  · simp [detect_language_and_translate_to_english, hdict]
  · intro hne
    cases tr <;>
      simp [detect_language_and_translate_to_english, hdict,
        LANGUAGE_SHORT_CODE_ENG, hne]
  · intro he
    subst he
    simp [detect_language_and_translate_to_english, hdict,
      LANGUAGE_SHORT_CODE_ENG]

/-- Witness for the amended C8 at two concrete inputs (one translated,
one already English). -/
theorem detect_translates_iff_not_english_witness :
    detect_language_and_translate_to_english "hege iddira" "kn" 0
        (.ok "how are you") =
      detect_language_and_translate_to_english "hege iddira" "kn" 1
        (.ok "how are you") ∧
    detect_language_and_translate_to_english "hege iddira" "kn" 0
        (.ok "how are you") = .ok ("how are you", "kn") ∧
    detect_language_and_translate_to_english "water" "en" 0 (.ok "x") =
      .ok ("water", "en") :=
  ⟨(detect_translates_iff_not_english "hege iddira" "kn" 0 1
      (.ok "how are you") (by decide)).1,
   (detect_translates_iff_not_english "hege iddira" "kn" 0 1
      (.ok "how are you") (by decide)).2.1 (by decide),
   (detect_translates_iff_not_english "water" "en" 0 1 (.ok "x")
      (by decide)).2.2 rfl⟩

/-- C9: localization is the identity in two cases: when the detected
language (lower-cased) is `"en"` the response is returned unchanged for
every translation-service outcome (so no service call can change it),
and when the translation service raised, both the endpoint's localize
step and `translate_text_to_language` itself return the
canonical-language text unchanged. -/
theorem localize_canonical_identity :
    (∀ (ta : Bool) (det : String) (svc : StageOutcome String)
       (text : String), strLower det = "en" →
       localize_response ta det svc text = text) ∧
    (∀ (ta : Bool) (det text : String),
       localize_response ta det .raised text = text) ∧
    (∀ (text target : String),
       translate_text_to_language text target .raised = text) := by
  refine ⟨?_, ?_, ?_⟩
  · intro ta det svc text h
    simp [localize_response, h]
  · intro ta det text
    simp only [localize_response, translate_text_to_language]
    split <;> rfl
  · intro text target
    rfl

/-- Witness for C9 at concrete texts. -/
theorem localize_canonical_identity_witness :
    localize_response true "en" (.ok "BONJOUR") "hello" = "hello" ∧
    localize_response true "kn" .raised "hello" = "hello" ∧
    translate_text_to_language "hello" "kn" .raised = "hello" :=
  ⟨localize_canonical_identity.1 true "en" (.ok "BONJOUR") "hello"
      (by decide),
   localize_canonical_identity.2.1 true "kn" "hello",
   localize_canonical_identity.2.2 "hello" "kn"⟩

/-- C10: whenever the English form of the query contains one of the fixed
greeting keywords as a plain substring, the endpoint returns the welcome
message immediately: the response does not depend on the profile lookup,
the retrieval outcome, or the generation outcome (those stages are never
reached), and it reports `medical_profile_applied = false` and
`content_filtered = false`. A query containing the word "hip" matches
the keyword "hi". -/
theorem greeting_short_circuit
    (user_name original_query english_query detected_language : String)
    (uma ta fa mfa ga : Bool) (wt rt : StageOutcome String)
    (lookup : ProfileLookup) (uid : Option String)
    (retrieval : StageOutcome (Option (List String)))
    (gen : StageOutcome (Option String))
    (h : is_greeting english_query = true) :
    servvia_post user_name original_query english_query detected_language
        uma ta fa mfa ga wt rt lookup uid retrieval gen =
      { success := true
        answer := localize_response ta detected_language wt welcome_message
        source := "ServVia.AI"
        user := user_name
        detected_language := detected_language
        medical_profile_applied := false
        content_filtered := false
        ai_generated := false
        is_greeting := true } ∧
    is_greeting "I broke my hip yesterday" = true := by
  constructor
  · simp [servvia_post, h]
  · decide

/-- Witness for C10 at the query "my hip hurts" (which matches "hi"
inside "hip"). -/
theorem greeting_short_circuit_witness :
    servvia_post "User" "my hip hurts" "my hip hurts" "en" true true true
        true true (.ok "w") (.ok "r") (.ok none) none (.ok (some ["c"]))
        (.ok (some "g")) =
      { success := true
        answer := localize_response true "en" (.ok "w") welcome_message
        source := "ServVia.AI"
        user := "User"
        detected_language := "en"
        medical_profile_applied := false
        content_filtered := false
        ai_generated := false
        is_greeting := true } ∧
    is_greeting "I broke my hip yesterday" = true :=
  greeting_short_circuit "User" "my hip hurts" "my hip hurts" "en" true
    true true true true (.ok "w") (.ok "r") (.ok none) none
    (.ok (some ["c"])) (.ok (some "g")) (by decide)

end ServVIA
